import Mathlib

/-!
Shallow embedding of src/libstrongswan/networking/streams/stream.c.

The stream object (private_stream_t) holds a socket descriptor, an optional
FILE handle for the formatted-output convenience functions, and two optional
callback/context pairs (read and write direction).

The external notification service (lib->watcher) is not part of the source
tree; only its use sites are.  We model its registration table for the
stream's descriptor as a list of entries: watcher add appends an entry (the
service does not deduplicate, which is why registering twice is forbidden to
the client), watcher remove deletes every entry of the descriptor and is
idempotent.  Every call the stream makes into the service is also recorded in
a log so that call sequences can be stated.

System calls (read/recv/write/send) are modelled by a list of OS responses,
one per attempted call; each response is either a byte count or an errno
value.  errno spellings that the code distinguishes (EAGAIN, EWOULDBLOCK,
EINTR) are constructors of their own.
-/

set_option autoImplicit false

namespace StreamSpec

/-- Event kinds delivered by the notification service
(WATCHER_READ, WATCHER_WRITE, WATCHER_EXCEPT). -/
inductive WatcherEvent where
  | read
  | write
  | exc
deriving DecidableEq, Repr

/-- An event mask: the set of event kinds a registration covers
(bits WATCHER_READ, WATCHER_WRITE, WATCHER_EXCEPT). -/
structure WatcherEvents where
  rd : Bool
  wr : Bool
  ex : Bool
deriving DecidableEq, Repr

/-- A registration entry held by the notification service:
a descriptor together with the event mask it is registered for. -/
structure WatcherEntry where
  fd : Int
  events : WatcherEvents
deriving DecidableEq, Repr

/-- Calls made by the stream into the notification service, recorded in
order: lib->watcher->remove(fd) and lib->watcher->add(fd, events, watch, this). -/
inductive WatcherOp where
  | removeOp (fd : Int)
  | addOp (fd : Int) (events : WatcherEvents)
deriving DecidableEq, Repr

/-- A callback function pointer (stream_cb_t); opaque, identified by a number. -/
abbrev Cb := Nat

/-- An opaque context pointer (void *data); NULL is 0. -/
abbrev Ctx := Int

/-- private_stream_t: descriptor, optional FILE handle, and the two
callback/context slots.  none models a NULL pointer. -/
structure PrivStream where
  fd : Int
  file : Option Nat
  read_cb : Option Cb
  read_data : Ctx
  write_cb : Option Cb
  write_data : Ctx
deriving DecidableEq, Repr

/-- The state a stream operation can touch: the stream object itself, the
notification service's registration table for this descriptor, and the log of
service calls made so far. -/
structure SysState where
  strm : PrivStream
  watcher : List WatcherEntry
  log : List WatcherOp
deriving DecidableEq, Repr

/-- An errno value as far as the code distinguishes them. -/
inductive Errno where
  | eagain
  | ewouldblock
  | eintr
  | other (n : Nat)
deriving DecidableEq, Repr

/-- Result of one underlying system call attempt: a byte count
(ret >= 0), or ret == -1 together with the errno it set. -/
inductive SysRes where
  | ok (n : Nat)
  | err (e : Errno)
deriving DecidableEq, Repr

/-- read_ method: loop over system call attempts.  In blocking mode the
plain read() result is taken as is; in non-blocking mode recv(MSG_DONTWAIT)
is issued and an EAGAIN failure is rewritten to EWOULDBLOCK.  An EINTR
failure restarts the loop; anything else is returned.  The list holds the
OS responses for the successive attempts; none means the responses ran out
while the loop was still retrying. -/
def read_ (s : SysState) (block : Bool) : List SysRes → SysState × Option SysRes
  | [] => (s, none)
  | r :: rest =>
    let r1 :=
      if block then r
      else
        match r with
        | .err .eagain => .err .ewouldblock
        | x => x
    match r1 with
    | .err .eintr => read_ s block rest
    | x => (s, some x)

/-- write_ method: same loop as read_, over write()/send(MSG_DONTWAIT). -/
def write_ (s : SysState) (block : Bool) : List SysRes → SysState × Option SysRes
  | [] => (s, none)
  | r :: rest =>
    let r1 :=
      if block then r
      else
        match r with
        | .err .eagain => .err .ewouldblock
        | x => x
    match r1 with
    | .err .eintr => write_ s block rest
    | x => (s, some x)

/-- remove_watcher: if either callback is set, call
lib->watcher->remove(fd); the service removes every entry of that
descriptor. -/
def remove_watcher (s : SysState) : SysState :=
  if s.strm.read_cb.isSome || s.strm.write_cb.isSome then
    { s with
      watcher := s.watcher.filter (fun e => e.fd != s.strm.fd),
      log := s.log ++ [.removeOp s.strm.fd] }
  else
    s

/-- add_watcher: build the event mask from the callback slots
(WATCHER_READ iff read_cb, WATCHER_WRITE iff write_cb) and, if the mask is
non-empty, call lib->watcher->add(fd, events, watch, this); the service
appends the entry. -/
def add_watcher (s : SysState) : SysState :=
  let events : WatcherEvents :=
    { rd := s.strm.read_cb.isSome, wr := s.strm.write_cb.isSome, ex := false }
  if events.rd || events.wr then
    { s with
      watcher := s.watcher ++ [⟨s.strm.fd, events⟩],
      log := s.log ++ [.addOp s.strm.fd events] }
  else
    s

/-- on_read method: remove the watcher, store the new read callback and
context, re-add the watcher. -/
def on_read (s : SysState) (cb : Option Cb) (data : Ctx) : SysState :=
  let s1 := remove_watcher s
  let s2 := { s1 with strm := { s1.strm with read_cb := cb, read_data := data } }
  add_watcher s2

/-- on_write method: remove the watcher, store the new write callback and
context, re-add the watcher. -/
def on_write (s : SysState) (cb : Option Cb) (data : Ctx) : SysState :=
  let s1 := remove_watcher s
  let s2 := { s1 with strm := { s1.strm with write_cb := cb, write_data := data } }
  add_watcher s2

/-- watch: the dispatch entry point registered with the service.  sem gives
the boolean result of invoking a callback on its context (the stream itself
is also passed to the callback in C; it is the receiver here).  Returns the
updated state, the keep flag handed back to the service, and which
callback/context pair was invoked, if any.  A WATCHER_READ (resp.
WATCHER_WRITE) event invokes the read (resp. write) callback and clears its
slot when it returns FALSE; WATCHER_EXCEPT invokes nothing and keeps the
initial keep = FALSE. -/
def watch (sem : Cb → Ctx → Bool) (s : SysState) (event : WatcherEvent) :
    SysState × Bool × Option (Cb × Ctx) :=
  match event with
  | .read =>
    match s.strm.read_cb with
    | some cb =>
      let keep := sem cb s.strm.read_data
      if keep then
        (s, true, some (cb, s.strm.read_data))
      else
        ({ s with strm := { s.strm with read_cb := none } }, false,
          some (cb, s.strm.read_data))
    | none => (s, false, none)
  | .write =>
    match s.strm.write_cb with
    | some cb =>
      let keep := sem cb s.strm.write_data
      if keep then
        (s, true, some (cb, s.strm.write_data))
      else
        ({ s with strm := { s.strm with write_cb := none } }, false,
          some (cb, s.strm.write_data))
    | none => (s, false, none)
  | .exc => (s, false, none)

/-- Clear one event kind from an event mask. -/
def clearEvent (ev : WatcherEvents) (e : WatcherEvent) : WatcherEvents :=
  match e with
  | .read => { ev with rd := false }
  | .write => { ev with wr := false }
  | .exc => { ev with ex := false }

/-- Modelled from the spec: the notification service's dispatch step is not
in the source tree (only stream.c is).  Per the spec's readiness state
machine, the read and write directions are independent single-slot
registrations and the dispatched callback's FALSE return drops the
registration for the dispatched event kind only; the descriptor's entry is
removed from the table when no registered interest remains.  This step calls
watch and, when watch returns FALSE, clears the dispatched event kind from
the descriptor's registered mask. -/
def watcher_dispatch (sem : Cb → Ctx → Bool) (s : SysState) (e : WatcherEvent) :
    SysState × Bool × Option (Cb × Ctx) :=
  match watch sem s e with
  | (s1, true, inv) => (s1, true, inv)
  | (s1, false, inv) =>
    let w2 := s1.watcher.filterMap (fun entry =>
      if entry.fd = s1.strm.fd then
        let ev2 := clearEvent entry.events e
        if ev2.rd || ev2.wr || ev2.ex then some { entry with events := ev2 }
        else none
      else some entry)
    ({ s1 with watcher := w2 }, false, inv)

/-- fdopen mode string used by vprint. -/
def fdopen_mode : String := "w+"

/-- vprint method: lazily fdopen(fd, "w+") on first use; on open failure
return -1 (the state is unchanged); otherwise vfprintf through the handle.
fdopenRes is the OS response to an fdopen call (none = failure), vfres the
return value of vfprintf.  Returns the state, the int result, and the fdopen
request issued, if any. -/
def vprint (s : SysState) (fdopenRes : Option Nat) (vfres : Int) :
    SysState × Int × Option (Int × String) :=
  match s.strm.file with
  | none =>
    match fdopenRes with
    | none => (s, -1, some (s.strm.fd, fdopen_mode))
    | some h =>
      ({ s with strm := { s.strm with file := some h } }, vfres,
        some (s.strm.fd, fdopen_mode))
  | some _ => (s, vfres, none)

/-- print method: wraps the varargs and forwards to vprint. -/
def print (s : SysState) (fdopenRes : Option Nat) (vfres : Int) :
    SysState × Int × Option (Int × String) :=
  vprint s fdopenRes vfres

/-- A resource release performed by destroy: fclose of the FILE handle or
close of the raw descriptor. -/
inductive Release where
  | fcloseR (h : Nat)
  | closeR (fd : Int)
deriving DecidableEq, Repr

/-- destroy method: remove the watcher, then fclose(file) if the FILE handle
exists, else close(fd).  Returns the final state and the list of resource
releases performed. -/
def destroy (s : SysState) : SysState × List Release :=
  let s1 := remove_watcher s
  match s1.strm.file with
  | some h => (s1, [.fcloseR h])
  | none => (s1, [.closeR s1.strm.fd])

/-- stream_create_from_fd: INIT zero-initializes every field except fd. -/
def stream_create_from_fd (fd : Int) : PrivStream :=
  { fd := fd, file := none, read_cb := none, read_data := 0,
    write_cb := none, write_data := 0 }

/-- A freshly created stream together with an empty service table and log. -/
def initState (fd : Int) : SysState :=
  { strm := stream_create_from_fd fd, watcher := [], log := [] }

/-- A call to one of the two registration methods. -/
inductive RegOp where
  | onRead (cb : Option Cb) (data : Ctx)
  | onWrite (cb : Option Cb) (data : Ctx)
deriving DecidableEq, Repr

/-- Apply one registration call. -/
def applyOp (s : SysState) : RegOp → SysState
  | .onRead cb data => on_read s cb data
  | .onWrite cb data => on_write s cb data

/-- Apply a sequence of registration calls in order. -/
def applyOps (s : SysState) (ops : List RegOp) : SysState :=
  ops.foldl applyOp s

/-- The event mask the stream's callback slots call for: read interest iff a
read callback is set, write interest iff a write callback is set. -/
def interestOf (st : PrivStream) : WatcherEvents :=
  { rd := st.read_cb.isSome, wr := st.write_cb.isSome, ex := false }

/-- The service table a stream's slots call for: one entry for the union of
active interests, or nothing when no callback is set. -/
def interestEntries (st : PrivStream) : List WatcherEntry :=
  if st.read_cb.isSome || st.write_cb.isSome then [⟨st.fd, interestOf st⟩]
  else []

/-- Consistency between the stream's slots and the service table: the table
holds exactly the entry the active callbacks call for. -/
def consistent (s : SysState) : Prop :=
  s.watcher = interestEntries s.strm

instance (s : SysState) : Decidable (consistent s) := by
  unfold consistent; infer_instance

/-! Helper lemmas shared by the claim theorems. -/

theorem remove_watcher_strm (s : SysState) : (remove_watcher s).strm = s.strm := by
  unfold remove_watcher; split <;> rfl

theorem add_watcher_strm (s : SysState) : (add_watcher s).strm = s.strm := by
  unfold add_watcher; dsimp only; split <;> rfl

theorem on_read_strm (s : SysState) (cb : Option Cb) (d : Ctx) :
    (on_read s cb d).strm = { s.strm with read_cb := cb, read_data := d } := by
  unfold on_read
  rw [add_watcher_strm]
  dsimp only
  rw [remove_watcher_strm]

theorem on_write_strm (s : SysState) (cb : Option Cb) (d : Ctx) :
    (on_write s cb d).strm = { s.strm with write_cb := cb, write_data := d } := by
  unfold on_write
  rw [add_watcher_strm]
  dsimp only
  rw [remove_watcher_strm]

theorem remove_watcher_watcher_of_consistent (s : SysState) (h : consistent s) :
    (remove_watcher s).watcher = [] := by
  rcases s with ⟨⟨fd, fl, rcb, rd, wcb, wd⟩, w, lg⟩
  unfold consistent interestEntries interestOf at h
  dsimp only at h
  unfold remove_watcher
  dsimp only
  cases rcb <;> cases wcb <;> simp_all [List.filter]

theorem add_watcher_watcher_of_empty (s : SysState) (h : s.watcher = []) :
    (add_watcher s).watcher = interestEntries s.strm := by
  rcases s with ⟨⟨fd, fl, rcb, rd, wcb, wd⟩, w, lg⟩
  dsimp only at h
  subst h
  unfold add_watcher interestEntries interestOf
  cases rcb <;> cases wcb <;> simp

theorem add_watcher_consistent (s : SysState) (h : s.watcher = []) :
    consistent (add_watcher s) := by
  unfold consistent
  rw [add_watcher_strm, add_watcher_watcher_of_empty s h]

theorem on_read_consistent (s : SysState) (cb : Option Cb) (d : Ctx)
    (h : consistent s) : consistent (on_read s cb d) := by
  apply add_watcher_consistent
  exact remove_watcher_watcher_of_consistent s h

theorem on_write_consistent (s : SysState) (cb : Option Cb) (d : Ctx)
    (h : consistent s) : consistent (on_write s cb d) := by
  apply add_watcher_consistent
  exact remove_watcher_watcher_of_consistent s h

theorem applyOps_consistent (ops : List RegOp) (s : SysState) (h : consistent s) :
    consistent (applyOps s ops) := by
  induction ops generalizing s with
  | nil => exact h
  | cons op rest ih =>
    cases op with
    | onRead cb d => exact ih _ (on_read_consistent s cb d h)
    | onWrite cb d => exact ih _ (on_write_consistent s cb d h)

theorem applyOps_fd (ops : List RegOp) (s : SysState) :
    (applyOps s ops).strm.fd = s.strm.fd := by
  induction ops generalizing s with
  | nil => rfl
  | cons op rest ih =>
    cases op with
    | onRead cb d =>
      show (applyOps (on_read s cb d) rest).strm.fd = s.strm.fd
      rw [ih, on_read_strm]
    | onWrite cb d =>
      show (applyOps (on_write s cb d) rest).strm.fd = s.strm.fd
      rw [ih, on_write_strm]

theorem initState_consistent (fd : Int) : consistent (initState fd) := rfl

theorem read_fst (s : SysState) (block : Bool) (rs : List SysRes) :
    (read_ s block rs).1 = s := by
  induction rs with
  | nil => rfl
  | cons r rest ih =>
    simp only [read_]
    split
    · exact ih
    · rfl

theorem write_fst (s : SysState) (block : Bool) (rs : List SysRes) :
    (write_ s block rs).1 = s := by
  induction rs with
  | nil => rfl
  | cons r rest ih =>
    simp only [write_]
    split
    · exact ih
    · rfl

/-! Claim theorems. -/

/-- C1: over every sequence of on_read/on_write calls on a fresh stream, the
notification service holds at most one registration for the stream's
descriptor, and that registration covers exactly the union of active
interests (read interest iff a read callback is set, write interest iff a
write callback is set), with no entry at all when neither callback is set;
each call stores the supplied callback/context pair for its direction. -/
theorem single_registration_invariant (fd : Int) (ops : List RegOp) :
    (applyOps (initState fd) ops).watcher.length ≤ 1 ∧
    (applyOps (initState fd) ops).watcher =
      (if (applyOps (initState fd) ops).strm.read_cb.isSome
          || (applyOps (initState fd) ops).strm.write_cb.isSome then
        [⟨fd, ⟨(applyOps (initState fd) ops).strm.read_cb.isSome,
               (applyOps (initState fd) ops).strm.write_cb.isSome, false⟩⟩]
      else []) ∧
    (∀ s cb d, (on_read s cb d).strm.read_cb = cb ∧
       (on_read s cb d).strm.read_data = d) ∧
    (∀ s cb d, (on_write s cb d).strm.write_cb = cb ∧
       (on_write s cb d).strm.write_data = d) := by
  have hc := applyOps_consistent ops (initState fd) (initState_consistent fd)
  have hfd : (applyOps (initState fd) ops).strm.fd = fd := applyOps_fd ops (initState fd)
  unfold consistent interestEntries interestOf at hc
  refine ⟨?_, ?_, ?_, ?_⟩
  · rw [hc]; split <;> simp
  · rw [hc, hfd]
  · intro s cb d; rw [on_read_strm]; exact ⟨rfl, rfl⟩
  · intro s cb d; rw [on_write_strm]; exact ⟨rfl, rfl⟩

/-- C10: on_read leaves the write slot, descriptor and FILE handle unchanged;
on_write leaves the read slot, descriptor and FILE handle unchanged; the
read_/write_ transfer methods leave the whole state unchanged. -/
theorem frame_effects :
    (∀ s cb d, (on_read s cb d).strm.write_cb = s.strm.write_cb ∧
       (on_read s cb d).strm.write_data = s.strm.write_data ∧
       (on_read s cb d).strm.fd = s.strm.fd ∧
       (on_read s cb d).strm.file = s.strm.file) ∧
    (∀ s cb d, (on_write s cb d).strm.read_cb = s.strm.read_cb ∧
       (on_write s cb d).strm.read_data = s.strm.read_data ∧
       (on_write s cb d).strm.fd = s.strm.fd ∧
       (on_write s cb d).strm.file = s.strm.file) ∧
    (∀ s block rs, (read_ s block rs).1 = s ∧ (write_ s block rs).1 = s) := by
  refine ⟨?_, ?_, ?_⟩
  · intro s cb d; rw [on_read_strm]; exact ⟨rfl, rfl, rfl, rfl⟩
  · intro s cb d; rw [on_write_strm]; exact ⟨rfl, rfl, rfl, rfl⟩
  · intro s block rs; exact ⟨read_fst s block rs, write_fst s block rs⟩

/-- C3: in non-blocking mode a would-block failure of the underlying call is
returned as the single canonical spelling EWOULDBLOCK, whether the OS
reported EAGAIN or EWOULDBLOCK; in blocking mode no such normalization
happens (each spelling is passed through as reported). -/
theorem would_block_normalized (s : SysState) (rest : List SysRes) :
    (read_ s false (.err .eagain :: rest)).2 = some (.err .ewouldblock) ∧
    (read_ s false (.err .ewouldblock :: rest)).2 = some (.err .ewouldblock) ∧
    (write_ s false (.err .eagain :: rest)).2 = some (.err .ewouldblock) ∧
    (write_ s false (.err .ewouldblock :: rest)).2 = some (.err .ewouldblock) ∧
    (read_ s true (.err .eagain :: rest)).2 = some (.err .eagain) ∧
    (read_ s true (.err .ewouldblock :: rest)).2 = some (.err .ewouldblock) ∧
    (write_ s true (.err .eagain :: rest)).2 = some (.err .eagain) ∧
    (write_ s true (.err .ewouldblock :: rest)).2 = some (.err .ewouldblock) :=
  ⟨rfl, rfl, rfl, rfl, rfl, rfl, rfl, rfl⟩

/-- C4 counterexample: a non-blocking read whose first (and only,
uninterrupted) underlying attempt fails with EAGAIN does not return that
result unmodified: the caller sees EWOULDBLOCK. -/
theorem first_attempt_result_modified_cex :
    (read_ (initState 0) false [.err .eagain]).2 = some (.err .ewouldblock) ∧
    some (SysRes.err .ewouldblock) ≠ some (SysRes.err .eagain) := by
  exact ⟨rfl, by decide⟩

/-- C4 amended: in both modes any leading EINTR failures are retried
transparently and EINTR is never returned to the caller; the first
non-interrupted attempt's result (error or byte count, including zero) is
returned, unmodified except that in non-blocking mode an EAGAIN failure is
reported as EWOULDBLOCK. -/
theorem eintr_retried_transparently (s : SysState) (block : Bool) :
    (∀ k rs, read_ s block (List.replicate k (.err .eintr) ++ rs) =
       read_ s block rs) ∧
    (∀ k rs, write_ s block (List.replicate k (.err .eintr) ++ rs) =
       write_ s block rs) ∧
    (∀ rs, (read_ s block rs).2 ≠ some (.err .eintr)) ∧
    (∀ rs, (write_ s block rs).2 ≠ some (.err .eintr)) ∧
    (∀ r rest, r ≠ .err .eintr →
       read_ s true (r :: rest) = (s, some r) ∧
       write_ s true (r :: rest) = (s, some r)) ∧
    (∀ r rest, r ≠ .err .eintr → r ≠ .err .eagain →
       read_ s false (r :: rest) = (s, some r) ∧
       write_ s false (r :: rest) = (s, some r)) ∧
    (∀ rest, read_ s false (.err .eagain :: rest) =
         (s, some (.err .ewouldblock)) ∧
       write_ s false (.err .eagain :: rest) =
         (s, some (.err .ewouldblock))) := by
  refine ⟨?_, ?_, ?_, ?_, ?_, ?_, ?_⟩
  · intro k
    induction k with
    | zero => intro rs; rfl
    | succ n ih =>
      intro rs
      rw [List.replicate_succ, List.cons_append]
      cases block <;> simpa [read_] using ih rs
  · intro k
    induction k with
    | zero => intro rs; rfl
    | succ n ih =>
      intro rs
      rw [List.replicate_succ, List.cons_append]
      cases block <;> simpa [write_] using ih rs
  · intro rs
    induction rs with
    | nil => simp [read_]
    | cons r rest ih =>
      match r with
      | .ok n => cases block <;> simp [read_]
      | .err .eagain => cases block <;> simp [read_]
      | .err .ewouldblock => cases block <;> simp [read_]
      | .err .eintr => cases block <;> simpa [read_] using ih
      | .err (.other n) => cases block <;> simp [read_]
  · intro rs
    induction rs with
    | nil => simp [write_]
    | cons r rest ih =>
      match r with
      | .ok n => cases block <;> simp [write_]
      | .err .eagain => cases block <;> simp [write_]
      | .err .ewouldblock => cases block <;> simp [write_]
      | .err .eintr => cases block <;> simpa [write_] using ih
      | .err (.other n) => cases block <;> simp [write_]
  · intro r rest h
    match r with
    | .ok n => exact ⟨rfl, rfl⟩
    | .err .eagain => exact ⟨rfl, rfl⟩
    | .err .ewouldblock => exact ⟨rfl, rfl⟩
    | .err .eintr => exact absurd rfl h
    | .err (.other n) => exact ⟨rfl, rfl⟩
  · intro r rest h h2
    match r with
    | .ok n => exact ⟨rfl, rfl⟩
    | .err .eagain => exact absurd rfl h2
    | .err .ewouldblock => exact ⟨rfl, rfl⟩
    | .err .eintr => exact absurd rfl h
    | .err (.other n) => exact ⟨rfl, rfl⟩
  · intro rest
    exact ⟨rfl, rfl⟩

/-- Witness for the amended C4 theorem at concrete inputs: one EINTR before
a 5-byte read is invisible, and a non-interrupted first attempt is returned
as is in blocking mode. -/
theorem eintr_retried_transparently_witness :
    read_ (initState 0) true (List.replicate 1 (.err .eintr) ++ [.ok 5]) =
      read_ (initState 0) true [.ok 5] ∧
    read_ (initState 0) true (SysRes.ok 5 :: []) = (initState 0, some (.ok 5)) :=
  ⟨(eintr_retried_transparently (initState 0) true).1 1 [.ok 5],
   ((eintr_retried_transparently (initState 0) true).2.2.2.2.1
     (.ok 5) [] (by decide)).1⟩

/-- C5: from a consistent state, on_read with a NULL callback deregisters the
descriptor entirely when no write callback is set (the log shows the remove
call, made only when some callback was set, and no re-register); when a write
callback is set the resulting registration covers exactly the write event.
Symmetrically for on_write with respect to an active read callback. -/
theorem null_callback_deregisters (s : SysState) (d d2 : Ctx)
    (h : consistent s) :
    (s.strm.write_cb = none →
      (on_read s none d).watcher = [] ∧
      (on_read s none d).log = s.log ++
        (if s.strm.read_cb.isSome then [WatcherOp.removeOp s.strm.fd] else [])) ∧
    (∀ wcb, s.strm.write_cb = some wcb →
      (on_read s none d).watcher = [⟨s.strm.fd, ⟨false, true, false⟩⟩]) ∧
    (s.strm.read_cb = none →
      (on_write s none d2).watcher = [] ∧
      (on_write s none d2).log = s.log ++
        (if s.strm.write_cb.isSome then [WatcherOp.removeOp s.strm.fd] else [])) ∧
    (∀ rcb, s.strm.read_cb = some rcb →
      (on_write s none d2).watcher = [⟨s.strm.fd, ⟨true, false, false⟩⟩]) := by
  rcases s with ⟨⟨fd, fl, rcb, rd, wcb, wd⟩, w, lg⟩
  unfold consistent interestEntries interestOf at h
  dsimp only at h
  refine ⟨?_, ?_, ?_, ?_⟩
  · intro hw
    dsimp only at hw
    subst hw
    cases rcb <;>
      simp_all [on_read, remove_watcher, add_watcher, List.filter]
  · intro wcb2 hw
    dsimp only at hw
    subst hw
    cases rcb <;>
      simp_all [on_read, remove_watcher, add_watcher, List.filter]
  · intro hr
    dsimp only at hr
    subst hr
    cases wcb <;>
      simp_all [on_write, remove_watcher, add_watcher, List.filter]
  · intro rcb2 hr
    dsimp only at hr
    subst hr
    cases wcb <;>
      simp_all [on_write, remove_watcher, add_watcher, List.filter]

/-- Witness for C5 at a concrete consistent state: dropping the read
callback while a write callback is active leaves a registration covering
exactly the write event. -/
theorem null_callback_deregisters_witness :
    (on_read (on_write (on_read (initState 5) (some 1) 2) (some 7) 8)
        none 0).watcher = [⟨5, ⟨false, true, false⟩⟩] :=
  (null_callback_deregisters
      (on_write (on_read (initState 5) (some 1) 2) (some 7) 8) 0 0
      (by decide)).2.1 7 (by decide)

/-- C2: from a consistent state, a dispatch whose callback returns FALSE
clears that direction's slot (the other slot is untouched) and the service's
resulting registration is exactly what the remaining active callbacks call
for; in particular, when the read callback declines while a write callback is
set, the descriptor stays registered for exactly the write event, and
symmetrically. -/
theorem dispatch_drop_recomputes (sem : Cb → Ctx → Bool) (s : SysState)
    (h : consistent s) :
    (∀ rcb, s.strm.read_cb = some rcb → sem rcb s.strm.read_data = false →
      (watcher_dispatch sem s .read).1.strm.read_cb = none ∧
      (watcher_dispatch sem s .read).1.strm.write_cb = s.strm.write_cb ∧
      (watcher_dispatch sem s .read).1.watcher =
        interestEntries (watcher_dispatch sem s .read).1.strm ∧
      (s.strm.write_cb.isSome = true →
        (watcher_dispatch sem s .read).1.watcher =
          [⟨s.strm.fd, ⟨false, true, false⟩⟩])) ∧
    (∀ wcb, s.strm.write_cb = some wcb → sem wcb s.strm.write_data = false →
      (watcher_dispatch sem s .write).1.strm.write_cb = none ∧
      (watcher_dispatch sem s .write).1.strm.read_cb = s.strm.read_cb ∧
      (watcher_dispatch sem s .write).1.watcher =
        interestEntries (watcher_dispatch sem s .write).1.strm ∧
      (s.strm.read_cb.isSome = true →
        (watcher_dispatch sem s .write).1.watcher =
          [⟨s.strm.fd, ⟨true, false, false⟩⟩])) := by
  rcases s with ⟨⟨fd, fl, rcb, rd, wcb, wd⟩, w, lg⟩
  unfold consistent interestEntries interestOf at h
  dsimp only at h
  constructor
  · intro rcb2 hr hk
    dsimp only at hr
    subst hr
    cases wcb <;>
      simp_all [watcher_dispatch, watch, clearEvent, interestEntries,
        interestOf]
  · intro wcb2 hw hk
    dsimp only at hw
    subst hw
    cases rcb <;>
      simp_all [watcher_dispatch, watch, clearEvent, interestEntries,
        interestOf]

/-- Witness for C2 at a concrete state: with both callbacks set and the read
callback declining, the registration afterwards covers exactly the write
event. -/
theorem dispatch_drop_recomputes_witness :
    (watcher_dispatch (fun _ _ => false)
        (on_write (on_read (initState 5) (some 1) 2) (some 7) 8)
        .read).1.watcher = [⟨5, ⟨false, true, false⟩⟩] :=
  ((dispatch_drop_recomputes (fun _ _ => false)
      (on_write (on_read (initState 5) (some 1) 2) (some 7) 8)
      (by decide)).1 1 (by decide) rfl).2.2.2 (by decide)

/-- C6: from a consistent state, destroy leaves no registration with the
notification service (removing is a no-op when nothing was registered),
performs exactly one resource release, releases the buffered FILE handle and
never closes the raw descriptor directly when the formatted-output facet was
used, and closes the raw descriptor otherwise. -/
theorem destroy_releases_once (s : SysState) (h : consistent s) :
    (destroy s).1.watcher = [] ∧
    (destroy s).2.length = 1 ∧
    (∀ hd, s.strm.file = some hd →
      (destroy s).2 = [Release.fcloseR hd] ∧
      Release.closeR s.strm.fd ∉ (destroy s).2) ∧
    (s.strm.file = none → (destroy s).2 = [Release.closeR s.strm.fd]) := by
  have hw := remove_watcher_watcher_of_consistent s h
  have hs := remove_watcher_strm s
  unfold destroy
  dsimp only
  rcases hfile : (remove_watcher s).strm.file with _ | hd
  · rw [hs] at hfile
    refine ⟨hw, rfl, ?_, ?_⟩
    · intro hd2 h2
      rw [h2] at hfile
      cases hfile
    · intro _
      rw [hs]
  · rw [hs] at hfile
    refine ⟨hw, rfl, ?_, ?_⟩
    · intro hd2 h2
      rw [hfile] at h2
      cases h2
      simp
    · intro h2
      rw [h2] at hfile
      cases hfile

/-- Witness for C6 at a concrete state reached through a successful vprint:
destroy closes the buffered handle, not the raw descriptor. -/
theorem destroy_releases_once_witness :
    (destroy (vprint (initState 3) (some 9) 7).1).2 = [Release.fcloseR 9] :=
  ((destroy_releases_once (vprint (initState 3) (some 9) 7).1
      (by decide)).2.2.1 9 (by decide)).1

/-- C7: the first vprint lazily opens the buffered handle over the raw
descriptor with fdopen(fd, "w+"); if that open fails the call returns -1 and
the state is unchanged; once the handle exists, every call reuses it, issues
no open, and returns vfprintf's result (the number of characters written on
success); print forwards to vprint. -/
theorem vprint_lazy_open (s : SysState) (vfres : Int) (oRes : Option Nat) :
    (s.strm.file = none →
      (vprint s none vfres).1 = s ∧
      (vprint s none vfres).2.1 = -1 ∧
      (vprint s none vfres).2.2 = some (s.strm.fd, fdopen_mode) ∧
      (∀ hh, (vprint s (some hh) vfres).1.strm =
          { s.strm with file := some hh } ∧
        (vprint s (some hh) vfres).2.1 = vfres ∧
        (vprint s (some hh) vfres).2.2 = some (s.strm.fd, fdopen_mode))) ∧
    (∀ hh, s.strm.file = some hh →
      (vprint s oRes vfres).1 = s ∧
      (vprint s oRes vfres).2.1 = vfres ∧
      (vprint s oRes vfres).2.2 = none) ∧
    print s oRes vfres = vprint s oRes vfres ∧
    fdopen_mode = "w+" := by
  rcases s with ⟨⟨fd, fl, rcb, rd, wcb, wd⟩, w, lg⟩
  refine ⟨?_, ?_, rfl, rfl⟩
  · intro hf
    dsimp only at hf
    subst hf
    exact ⟨rfl, rfl, rfl, fun hh => ⟨rfl, rfl, rfl⟩⟩
  · intro hh hf
    dsimp only at hf
    subst hf
    exact ⟨rfl, rfl, rfl⟩

/-- Witness for C7 at concrete inputs: a failing first open returns -1 and
leaves the state unchanged; after a successful open the handle is stored. -/
theorem vprint_lazy_open_witness :
    (vprint (initState 3) none 7).1 = initState 3 ∧
    (vprint (initState 3) none 7).2.1 = -1 ∧
    (vprint (initState 3) (some 9) 7).1.strm =
      { (initState 3).strm with file := some 9 } := by
  have h := (vprint_lazy_open (initState 3) 7 none).1 (by decide)
  exact ⟨h.1, h.2.1, (h.2.2.2 9).1⟩

/-- C8: a read-ready event invokes exactly the stored read callback on its
stored context (the stream itself is the receiver), a write-ready event the
stored write callback on its context, the value returned to the service is
the callback's keep result, and an exception event invokes no callback. -/
theorem watch_invokes_stored (sem : Cb → Ctx → Bool) (s : SysState) :
    (∀ rcb, s.strm.read_cb = some rcb →
      (watch sem s .read).2.2 = some (rcb, s.strm.read_data) ∧
      (watch sem s .read).2.1 = sem rcb s.strm.read_data) ∧
    (∀ wcb, s.strm.write_cb = some wcb →
      (watch sem s .write).2.2 = some (wcb, s.strm.write_data) ∧
      (watch sem s .write).2.1 = sem wcb s.strm.write_data) ∧
    (watch sem s .exc).2.2 = none ∧
    (watch sem s .exc).2.1 = false := by
  refine ⟨?_, ?_, rfl, rfl⟩
  · intro rcb hr
    rcases hsem : sem rcb s.strm.read_data <;>
      simp [watch, hr, hsem]
  · intro wcb hw
    rcases hsem : sem wcb s.strm.write_data <;>
      simp [watch, hw, hsem]

/-- Witness for C8 at a concrete state: the stored read callback and context
are invoked and the keep result is passed through. -/
theorem watch_invokes_stored_witness :
    (watch (fun _ _ => true) (on_read (initState 5) (some 1) 2) .read).2.2 =
      some (1, 2) ∧
    (watch (fun _ _ => true) (on_read (initState 5) (some 1) 2) .read).2.1 =
      true :=
  (watch_invokes_stored (fun _ _ => true)
    (on_read (initState 5) (some 1) 2)).1 1 (by decide)

/-- C9 counterexample: with a read callback registered, dispatching an
exception event returns FALSE and leaves the slots set, but the descriptor's
registration does not disappear: the service still holds the read-interest
entry, against the claim that no registration remains. -/
theorem exc_dispatch_registration_remains_cex :
    (watcher_dispatch (fun _ _ => true) (on_read (initState 5) (some 1) 2)
        WatcherEvent.exc).2.1 = false ∧
    (watcher_dispatch (fun _ _ => true) (on_read (initState 5) (some 1) 2)
        WatcherEvent.exc).1.strm.read_cb = some 1 ∧
    (watcher_dispatch (fun _ _ => true) (on_read (initState 5) (some 1) 2)
        WatcherEvent.exc).1.watcher ≠ [] := by
  decide

/-- C9 amended: from a consistent state, dispatching an exception event
invokes no callback, returns FALSE to the service, and leaves the whole
stream (both callback/context slots included) unchanged; since exception
interest is never part of the stream's registration, the service dropping
the exception interest leaves the registration table unchanged as well. -/
theorem exc_dispatch_behavior (sem : Cb → Ctx → Bool) (s : SysState)
    (h : consistent s) :
    (watcher_dispatch sem s .exc).2.1 = false ∧
    (watcher_dispatch sem s .exc).2.2 = none ∧
    (watcher_dispatch sem s .exc).1.strm = s.strm ∧
    (watcher_dispatch sem s .exc).1.watcher = s.watcher := by
  rcases s with ⟨⟨fd, fl, rcb, rd, wcb, wd⟩, w, lg⟩
  unfold consistent interestEntries interestOf at h
  dsimp only at h
  cases rcb <;> cases wcb <;>
    simp_all [watcher_dispatch, watch, clearEvent]

/-- Witness for the amended C9 theorem at a concrete state with both
callbacks registered. -/
theorem exc_dispatch_behavior_witness :
    (watcher_dispatch (fun _ _ => false)
        (on_write (on_read (initState 5) (some 1) 2) (some 7) 8)
        WatcherEvent.exc).1.watcher =
      (on_write (on_read (initState 5) (some 1) 2) (some 7) 8).watcher :=
  (exc_dispatch_behavior (fun _ _ => false)
      (on_write (on_read (initState 5) (some 1) 2) (some 7) 8)
      (by decide)).2.2.2

end StreamSpec
